import Mathlib

/-!
Shallow embedding of the ΔΔCt relative-expression pipeline of
`Mathis_Figure_S7B_qPCR.ipynb` (reynoldsk/titratableCRISPRi).

Raw Cq values are embedded as exact rationals (`ℚ`); the real-valued
operations of the notebook (`math.sqrt`, `math.pow(2, ·)`, `np.log`) are
embedded over `ℝ`.  A Python `dict` lookup that can raise `KeyError` is
embedded as an `Option`-valued lookup (`none` = the lookup fails), and the
`float(...)` conversion that can raise `ValueError` as a parser returning
`Option ℚ`.  `scipy.stats.sem` applied to a group of fewer than two values
returns NaN (the `ddof=1` variance divides by `n - 1 = 0`); that NaN is
embedded as `none` in `semSqOpt`.
-/

/-- Notebook cell "Establish paths and variables": `file_list`, the two
input CSV files. -/
def file_list : List String :=
  ["20200806_luna_rtqpcr_quant.csv", "20200813_luna_rtqpcr_quant.csv"]

/-- `file_date = file_name[0:8]` applied to each file of `file_list`. -/
def fileDates : List String := file_list.map (fun s => s.take 8)

/-- Notebook cell "Establish paths and variables": `gene_list`, a dict from
file date to the genes measured on that date.  A date outside the dict is
mapped to `[]` (the notebook only ever looks up the two dates present). -/
def gene_list : String → List String := fun d =>
  if d = "20200806" then ["hcaT", "topA", "ribB"]
  else if d = "20200813" then ["hcaT", "ispA", "mukF", "tadA"]
  else []

/-- Key initialization of `cq_dict` ("Import data" cell, second loop): for
every date `d` and every gene `g ≠ 'hcaT'` of `gene_list[d]`, the keys
`g + '1_C'`, `g + '3_C'` and `'Rand42_' + d` are created both in
`cq_dict[g]` and in `cq_dict['hcaT']`.  `guideKeys fds gl g` lists the
guide keys of `cq_dict[g]` after those loops (order and duplication are
irrelevant; only membership is used). -/
def guideKeys (fds : List String) (gl : String → List String) (g : String) :
    List String :=
  if g = "hcaT" then
    fds.flatMap (fun d =>
      ((gl d).filter (fun gene => gene != "hcaT")).flatMap
        (fun gene => [gene ++ "1_C", gene ++ "3_C", "Rand42_" ++ d]))
  else
    fds.flatMap (fun d =>
      if g ∈ gl d then [g ++ "1_C", g ++ "3_C", "Rand42_" ++ d] else [])

/-- `cq_dict[gene][guide].append(float(sp[5]))`: append one replicate value
to the (gene, guide) group, leaving all other groups unchanged. -/
def updateTbl (tbl : String → String → List ℚ) (g gd : String) (v : ℚ) :
    String → String → List ℚ :=
  fun g' gd' => if g' = g ∧ gd' = gd then tbl g gd ++ [v] else tbl g' gd'

/-- One iteration of the CSV ingestion loop ("Import data" cell, third
loop), applied to the already-split row `sp = line.split(',')`:

    if sp[2] != '' and sp[5] != '':
        if sp[2] in gene_list[file_date] and sp[4] in cq_dict[sp[2]].keys():
            cq_dict[sp[2]][sp[4]].append(float(sp[5]))

`sp[i]` out of range (Python `IndexError`) and a non-numeric `sp[5]`
(Python `ValueError` from `float`) both abort ingestion: result `none`.
Python's `and` short-circuits, so `sp[5]` is only indexed when `sp[2]` is
nonempty, and `sp[4]` only when `sp[2]` passed the gene-list test. -/
def ingestRow (gl : List String) (keys : String → List String)
    (parseCq : String → Option ℚ) (tbl : String → String → List ℚ)
    (sp : List String) : Option (String → String → List ℚ) :=
  match sp[2]? with
  | none => none
  | some gene =>
    if gene = "" then some tbl
    else
      match sp[5]? with
      | none => none
      | some cq =>
        if cq = "" then some tbl
        else if gene ∈ gl then
          match sp[4]? with
          | none => none
          | some gd =>
            if gd ∈ keys gene then
              match parseCq cq with
              | none => none
              | some v => some (updateTbl tbl gene gd v)
            else some tbl
        else some tbl

/-- The ingestion loop `for line in f` folded over the data rows. -/
def ingestRows (gl : List String) (keys : String → List String)
    (parseCq : String → Option ℚ) :
    (String → String → List ℚ) → List (List String) →
      Option (String → String → List ℚ)
  | tbl, [] => some tbl
  | tbl, r :: rs =>
    match ingestRow gl keys parseCq tbl r with
    | none => none
    | some t => ingestRows gl keys parseCq t rs

/-- Whole-file ingestion: `first_line = f.readline()` consumes the first
line unconditionally, then the loop processes the remaining rows. -/
def ingestFile (gl : List String) (keys : String → List String)
    (parseCq : String → Option ℚ) (tbl : String → String → List ℚ)
    (lines : List (List String)) : Option (String → String → List ℚ) :=
  match lines with
  | [] => some tbl
  | _ :: rows => ingestRows gl keys parseCq tbl rows

/-- `np.mean`: sum divided by length ("Relative Expression Calculations"
cell, `cq_mean_dict`).  In ℚ the empty case gives junk `0/0 = 0` where
numpy gives NaN; every claim about means assumes nonempty groups. -/
def mean (xs : List ℚ) : ℚ := xs.sum / (xs.length : ℚ)

/-- The square of `stats.sem` (`cq_sem_dict`): with `ddof = 1`,
`sem(xs) = sqrt(Σ (x - x̄)² / (n - 1)) / sqrt n`, so
`sem(xs)² = Σ (x - x̄)² / ((n - 1)·n)`.  Kept in ℚ so that it is exactly
computable; in ℚ the `n ≤ 1` case gives junk `0` where scipy gives NaN
(see `semSqOpt` for the honest fallible version). -/
def semSq (xs : List ℚ) : ℚ :=
  ((xs.map (fun x => (x - mean xs) ^ 2)).sum / ((xs.length : ℚ) - 1)) /
    (xs.length : ℚ)

/-- `stats.sem` with its NaN behaviour made explicit: on a group of fewer
than two values the `ddof = 1` variance divides by zero and scipy returns
NaN (embedded as `none`); no exception is raised. -/
def semSqOpt (xs : List ℚ) : Option ℚ :=
  if 2 ≤ xs.length then some (semSq xs) else none

/-- `stats.sem` as a real number (√ of `semSq`). -/
noncomputable def sem (xs : List ℚ) : ℝ := Real.sqrt (semSq xs)

/-- The four replicate groups the pipeline needs for one gene `G` under one
guide `Gd`: reference gene (hcaT) under `Gd`, `G` under `Gd`, reference
gene under the reference guide (`Rand42_*`), and `G` under the reference
guide. -/
structure Groups where
  hcaT : List ℚ
  gene : List ℚ
  hcaTRef : List ℚ
  geneRef : List ℚ

/-- `d_cq_mean_dict[gene][guide] = cq_mean_dict['hcaT'][guide] -
cq_mean_dict[gene][guide]`. -/
def dCqMean (h g : List ℚ) : ℚ := mean h - mean g

/-- `dd_cq_mean_dict[gene][guide] = d_cq_mean_dict[gene][guide] -
d_cq_mean_dict[gene]['Rand42_' + file_date]`. -/
def ddCqMean (G : Groups) : ℚ :=
  dCqMean G.hcaT G.gene - dCqMean G.hcaTRef G.geneRef

/-- `d_cq_sem_dict[gene][guide] = math.sqrt(cq_sem_dict['hcaT'][guide]**2 +
cq_sem_dict[gene][guide]**2)`. -/
noncomputable def dCqSem (h g : List ℚ) : ℝ :=
  Real.sqrt (sem h ^ 2 + sem g ^ 2)

/-- `dd_cq_sem_dict[gene][guide] = math.sqrt(d_cq_sem_dict[gene][guide]**2 +
d_cq_sem_dict[gene]['Rand42_' + file_date]**2)`. -/
noncomputable def ddCqSem (G : Groups) : ℝ :=
  Real.sqrt (dCqSem G.hcaT G.gene ^ 2 + dCqSem G.hcaTRef G.geneRef ^ 2)

/-- `dd_cq_mean_lin_dict[gene][guide] = math.pow(2,
dd_cq_mean_dict[gene][guide])`. -/
noncomputable def foldChange (G : Groups) : ℝ := (2 : ℝ) ^ ((ddCqMean G : ℝ))

/-- `dd_cq_sem_lin_dict[gene][guide] = np.log(2) *
dd_cq_sem_dict[gene][guide] * dd_cq_mean_lin_dict[gene][guide]`. -/
noncomputable def foldChangeSem (G : Groups) : ℝ :=
  Real.log 2 * ddCqSem G * foldChange G

/-- Step 2 with its dict lookups explicit: `cq_mean_dict['hcaT'][guide]`
and `cq_mean_dict[gene][guide]`; a missing key (Python `KeyError`) makes
the result `none`. -/
def dCqMeanOpt (cqMean : String → String → Option ℚ) (g gd : String) :
    Option ℚ :=
  (cqMean "hcaT" gd).bind fun h => (cqMean g gd).map fun x => h - x

/-- Step 3 with its dict lookups explicit:
`d_cq_mean_dict[gene][guide] - d_cq_mean_dict[gene]['Rand42_' + file_date]`;
a missing key makes the result `none`. -/
def ddCqMeanOpt (dCq : String → String → Option ℚ) (fileDate g gd : String) :
    Option ℚ :=
  (dCq g gd).bind fun a => (dCq g ("Rand42_" ++ fileDate)).map fun b => a - b

/-- `cq_mean_dict` built over exactly the initialized keys of `cq_dict`:
defined at `(g, gd)` iff `gd` is a guide key of `cq_dict[g]` (the mean
loop iterates `cq_dict[gene].keys()`, so its domain is the key set). -/
def meanTableOf (fds : List String) (gl : String → List String)
    (mv : String → String → ℚ) : String → String → Option ℚ :=
  fun g gd => if gd ∈ guideKeys fds gl g then some (mv g gd) else none

/-- The spec's worked example: hcaT = [23, 23], gene = [22, 22],
hcaT_ref = [23, 23], gene_ref = [23, 23]. -/
def workedExample : Groups := ⟨[23, 23], [22, 22], [23, 23], [23, 23]⟩

/-- C1: the pipeline computes `ddCq_mean = (refGeneMean(Gd) - geneMean(G,Gd))
- (refGeneMean(refGuide) - geneMean(G,refGuide))`, `fold_change =
2 ^ ddCq_mean`, `fold_change_sem = ln 2 * ddCq_sem * fold_change` with
`ddCq_sem` the root-sum-of-squares of the two dCq SEMs, and on the worked
example it yields `ddCq_mean = 1` and `fold_change = 2`. -/
theorem c1_pipeline_formulas :
    (∀ G : Groups,
        ddCqMean G =
          (mean G.hcaT - mean G.gene) - (mean G.hcaTRef - mean G.geneRef) ∧
        foldChange G = (2 : ℝ) ^ ((ddCqMean G : ℝ)) ∧
        ddCqSem G =
          Real.sqrt (dCqSem G.hcaT G.gene ^ 2 + dCqSem G.hcaTRef G.geneRef ^ 2) ∧
        foldChangeSem G = Real.log 2 * ddCqSem G * foldChange G) ∧
    ddCqMean workedExample = 1 ∧ foldChange workedExample = 2 := by
  have h : ddCqMean workedExample = 1 := by
    norm_num [ddCqMean, dCqMean, mean, workedExample]
  refine ⟨fun G => ⟨rfl, rfl, rfl, rfl⟩, h, ?_⟩
  simp only [foldChange, h, Rat.cast_one, Real.rpow_one]

/-- The replicate groups of the C2 scenario: the target gene's group under
the tested guide has a single value. -/
def c2Groups : Groups := ⟨[23, 23], [22], [23, 23], [23, 23]⟩

/-- C2 counterexample: a replicate group of length 1 does not abort the
computation — `stats.sem` returns NaN (`none`) instead of raising, and the
mean-level pipeline still completes (`ddCq_mean = 1` here). -/
theorem c2_counterexample :
    semSqOpt [(22 : ℚ)] = none ∧ ddCqMean c2Groups = 1 := by
  constructor
  · simp [semSqOpt]
  · norm_num [ddCqMean, dCqMean, mean, c2Groups]

/-- C2 (amended): a replicate group with fewer than 2 values yields an
undefined (NaN, embedded `none`) SEM, exactly when the length is below 2;
no exception interrupts the computation. -/
theorem c2_sem_undefined_iff (xs : List ℚ) :
    semSqOpt xs = none ↔ xs.length < 2 := by
  by_cases h : 2 ≤ xs.length
  · simp only [semSqOpt, if_pos h]
    constructor
    · intro e; exact absurd e (by simp)
    · intro e; omega
  · simp only [semSqOpt, if_neg h]
    constructor
    · intro _; omega
    · intro _; trivial

/-- C3: if the reference-gene (hcaT) group for a guide is absent, the ΔCq
lookup fails, and if the reference-guide (`Rand42_*`) ΔCq entry for a gene
is absent, the ΔΔCq lookup fails (the Python `KeyError` the spec names
`MissingReferenceError`, embedded as `none`). -/
theorem c3_missing_reference (cqMean dCq : String → String → Option ℚ)
    (g gd fd : String)
    (h1 : cqMean "hcaT" gd = none) (h2 : dCq g ("Rand42_" ++ fd) = none) :
    dCqMeanOpt cqMean g gd = none ∧ ddCqMeanOpt dCq fd g gd = none := by
  constructor
  · simp [dCqMeanOpt, h1]
  · cases ha : dCq g gd <;> simp [ddCqMeanOpt, ha, h2]

/-- A mean table missing every hcaT entry, for the concrete
missing-reference scenario. -/
def c3CqMean : String → String → Option ℚ :=
  fun g _ => if g = "hcaT" then none else some 22

/-- A ΔCq table missing the reference-guide entry, for the concrete
missing-reference scenario. -/
def c3DCq : String → String → Option ℚ :=
  fun _ gd => if gd = "Rand42_20200806" then none else some 1

/-- Witness for C3: omitting the reference groups at a concrete input makes
both lookups fail. -/
theorem c3_witness :
    c3CqMean "hcaT" "topA1_C" = none ∧
      c3DCq "topA" ("Rand42_" ++ "20200806") = none ∧
      dCqMeanOpt c3CqMean "topA" "topA1_C" = none ∧
      ddCqMeanOpt c3DCq "20200806" "topA" "topA1_C" = none := by
  refine ⟨rfl, by decide, ?_, ?_⟩
  · exact (c3_missing_reference c3CqMean c3DCq "topA" "topA1_C" "20200806" rfl
      (by decide)).1
  · exact (c3_missing_reference c3CqMean c3DCq "topA" "topA1_C" "20200806" rfl
      (by decide)).2

/-- C4: a gene normalized against its own reference-guide baseline (the
tested guide's groups equal to the reference-guide groups) yields a fold
change of exactly 1. -/
theorem c4_self_reference_unity (h g : List ℚ)
    (hh : 2 ≤ h.length) (hg : 2 ≤ g.length) :
    foldChange ⟨h, g, h, g⟩ = 1 := by
  have hz : ddCqMean ⟨h, g, h, g⟩ = 0 := by simp [ddCqMean, dCqMean]
  have _ := hh
  have _ := hg
  simp only [foldChange, hz, Rat.cast_zero, Real.rpow_zero]

/-- Witness for C4 at a concrete valid input. -/
theorem c4_witness :
    2 ≤ ([23, 23] : List ℚ).length ∧ 2 ≤ ([22, 22] : List ℚ).length ∧
      foldChange ⟨[23, 23], [22, 22], [23, 23], [22, 22]⟩ = 1 :=
  ⟨by decide, by decide,
    c4_self_reference_unity [23, 23] [22, 22] (by decide) (by decide)⟩

/-- Sum of a group shifted by a constant. -/
theorem sum_map_sub_const (g : List ℚ) (k : ℚ) :
    (g.map (fun x => x - k)).sum = g.sum - g.length * k := by
  induction g with
  | nil => simp
  | cons a t ih => simp [ih]; ring

/-- Mean of a nonempty group shifted by a constant. -/
theorem mean_map_sub_const (g : List ℚ) (k : ℚ) (hg : g ≠ []) :
    mean (g.map (fun x => x - k)) = mean g - k := by
  have hlen : (g.length : ℚ) ≠ 0 := by
    exact_mod_cast Nat.pos_iff_ne_zero.mp (List.length_pos.mpr hg)
  simp only [mean, List.length_map, sum_map_sub_const]
  field_simp

/-- C5: moving every replicate of the target gene's group under the tested
guide `k` cycles closer to the reference (Cq value `x ↦ x - k`, which
shifts its ΔCq distance from the reference by `+k`) multiplies the fold
change by exactly `2 ^ k`, all other groups unchanged. -/
theorem c5_offset_scaling (h g hr gr : List ℚ) (k : ℚ)
    (hh : 2 ≤ h.length) (hg : 2 ≤ g.length)
    (hhr : 2 ≤ hr.length) (hgr : 2 ≤ gr.length) :
    foldChange ⟨h, g.map (fun x => x - k), hr, gr⟩ =
      (2 : ℝ) ^ ((k : ℝ)) * foldChange ⟨h, g, hr, gr⟩ := by
  have _ := hh; have _ := hhr; have _ := hgr
  have hg0 : g ≠ [] := by
    intro e
    rw [e] at hg
    simp at hg
  have hdd : ddCqMean ⟨h, g.map (fun x => x - k), hr, gr⟩ =
      ddCqMean ⟨h, g, hr, gr⟩ + k := by
    simp only [ddCqMean, dCqMean, mean_map_sub_const g k hg0]
    ring
  simp only [foldChange, hdd]
  push_cast
  rw [Real.rpow_add (by norm_num : (0 : ℝ) < 2)]
  ring

/-- Witness for C5 at a concrete valid input with offset `k = 2`. -/
theorem c5_witness :
    2 ≤ ([23, 23] : List ℚ).length ∧ 2 ≤ ([22, 22] : List ℚ).length ∧
      foldChange ⟨[23, 23], ([22, 22] : List ℚ).map (fun x => x - 2),
          [23, 23], [23, 23]⟩ =
        (2 : ℝ) ^ (((2 : ℚ) : ℝ)) * foldChange ⟨[23, 23], [22, 22], [23, 23], [23, 23]⟩ :=
  ⟨by decide, by decide,
    c5_offset_scaling [23, 23] [22, 22] [23, 23] [23, 23] 2
      (by decide) (by decide) (by decide) (by decide)⟩

/-- C6: the output pair is made of (finite) real values with `fold_change`
strictly positive and `fold_change_sem` non-negative, for any input
groups. -/
theorem c6_output_signs (G : Groups) :
    0 < foldChange G ∧ 0 ≤ foldChangeSem G := by
  have hfc : 0 < foldChange G := Real.rpow_pos_of_pos (by norm_num) _
  refine ⟨hfc, ?_⟩
  have hlog : 0 ≤ Real.log 2 := Real.log_nonneg (by norm_num)
  have hsem : 0 ≤ ddCqSem G := Real.sqrt_nonneg _
  exact mul_nonneg (mul_nonneg hlog hsem) hfc.le

/-- The empty replicate table, used as a concrete starting state. -/
def tbl0 : String → String → List ℚ := fun _ _ => []

/-- A parser on which no string is a numeric Cq, exercising the
`float(...)` failure path. -/
def parseNone : String → Option ℚ := fun _ => none

/-- A small concrete Cq parser recognising only the string "22". -/
def parse22 : String → Option ℚ := fun s => if s = "22" then some 22 else none

/-- The concrete guide-key table `g ↦ [g1_C, g3_C]` for witnesses. -/
def keysC : String → List String := fun g => [g ++ "1_C", g ++ "3_C"]

/-- C7 counterexample: a row whose Cq field cannot be parsed as a number
(`parseNone "abc" = none`) but whose gene is not in the gene list is
silently skipped — ingestion returns the unchanged table instead of
failing. -/
theorem c7_counterexample :
    parseNone "abc" = none ∧
      ingestRow ["hcaT", "topA"] keysC parseNone tbl0
        ["w", "w", "xgene", "w", "gd", "abc"] = some tbl0 := by
  constructor
  · rfl
  · have h2 : ¬("xgene" ∈ (["hcaT", "topA"] : List String)) := by decide
    simp [ingestRow, h2]

/-- C7 (amended): for a row with at least six fields, ingestion fails (the
`float` `ValueError`, embedded `none`) exactly when the gene field (index
2) and Cq field (index 5) are nonempty, the gene is in the gene list, the
guide (index 4) is an initialized key, and the Cq field is not numeric;
every other such row is skipped without error.  (A row short of fields 2
or 5 that reaches them fails with `IndexError` instead.) -/
theorem c7_malformed_rows (gl : List String) (keys : String → List String)
    (parseCq : String → Option ℚ) (tbl : String → String → List ℚ)
    (a b c d e f : String) (rest : List String) :
    ingestRow gl keys parseCq tbl (a :: b :: c :: d :: e :: f :: rest) = none ↔
      (c ≠ "" ∧ f ≠ "" ∧ c ∈ gl ∧ e ∈ keys c ∧ parseCq f = none) := by
  by_cases hc : c = ""
  · simp [ingestRow, hc]
  · by_cases hf : f = ""
    · simp [ingestRow, hc, hf]
    · by_cases hgl : c ∈ gl
      · by_cases hk : e ∈ keys c
        · cases hp : parseCq f <;> simp [ingestRow, hc, hf, hgl, hk, hp]
        · simp [ingestRow, hc, hf, hgl, hk]
      · simp [ingestRow, hc, hf, hgl]

/-- C8: ingestion reads the gene from field index 2, the guide from index
4 and the Cq from index 5; a row whose gene or Cq field is empty is
skipped, and an accepted row appends exactly the parsed field-5 value to
the (field-2, field-4) group. -/
theorem c8_field_mapping (gl : List String) (keys : String → List String)
    (parseCq : String → Option ℚ) (tbl : String → String → List ℚ)
    (a b c d e f : String) (rest : List String) :
    ((c = "" ∨ f = "") →
      ingestRow gl keys parseCq tbl (a :: b :: c :: d :: e :: f :: rest) =
        some tbl) ∧
    (∀ v : ℚ, c ≠ "" → f ≠ "" → c ∈ gl → e ∈ keys c → parseCq f = some v →
      ingestRow gl keys parseCq tbl (a :: b :: c :: d :: e :: f :: rest) =
        some (updateTbl tbl c e v)) := by
  constructor
  · rintro (hc | hf)
    · simp [ingestRow, hc]
    · by_cases hc : c = "" <;> simp [ingestRow, hc, hf]
  · intro v hc hf hgl hk hp
    simp [ingestRow, hc, hf, hgl, hk, hp]

/-- Witness for C8: an empty gene field is skipped, and a well-formed row
appends its Cq value to the group named by fields 2 and 4. -/
theorem c8_witness :
    ingestRow ["hcaT", "topA"] keysC parse22 tbl0
        ["w", "w", "", "w", "topA1_C", "22"] = some tbl0 ∧
      ingestRow ["hcaT", "topA"] keysC parse22 tbl0
        ["w", "w", "topA", "w", "topA1_C", "22"] =
        some (updateTbl tbl0 "topA" "topA1_C" 22) :=
  ⟨(c8_field_mapping ["hcaT", "topA"] keysC parse22 tbl0
      "w" "w" "" "w" "topA1_C" "22" []).1 (Or.inl rfl),
   (c8_field_mapping ["hcaT", "topA"] keysC parse22 tbl0
      "w" "w" "topA" "w" "topA1_C" "22" []).2 22
      (by decide) (by decide) (by decide) (by decide) (by decide)⟩

/-- C9: the first line of each file is consumed as a header and never
contributes a replicate, whatever its contents; a well-formed row whose
gene is not in the date's gene list, or whose guide is not an initialized
key of that gene, is silently discarded (table unchanged, no error). -/
theorem c9_header_and_unknown_keys (gl : List String)
    (keys : String → List String) (parseCq : String → Option ℚ)
    (tbl : String → String → List ℚ) :
    (∀ (header : List String) (rows : List (List String)),
        ingestFile gl keys parseCq tbl (header :: rows) =
          ingestRows gl keys parseCq tbl rows) ∧
    (∀ (a b c d e f : String) (rest : List String), c ∉ gl →
        ingestRow gl keys parseCq tbl (a :: b :: c :: d :: e :: f :: rest) =
          some tbl) ∧
    (∀ (a b c d e f : String) (rest : List String), e ∉ keys c →
        ingestRow gl keys parseCq tbl (a :: b :: c :: d :: e :: f :: rest) =
          some tbl) := by
  refine ⟨fun header rows => rfl, ?_, ?_⟩
  · intro a b c d e f rest hgl
    by_cases hc : c = ""
    · simp [ingestRow, hc]
    · by_cases hf : f = "" <;> simp [ingestRow, hc, hf, hgl]
  · intro a b c d e f rest hk
    by_cases hc : c = ""
    · simp [ingestRow, hc]
    · by_cases hf : f = ""
      · simp [ingestRow, hc, hf]
      · by_cases hgl : c ∈ gl <;> simp [ingestRow, hc, hf, hgl, hk]

/-- Witness for C9: a header line alone leaves the table unchanged, and a
row with an unknown gene is discarded at a concrete input. -/
theorem c9_witness :
    ("xgene" ∉ (["hcaT", "topA"] : List String)) ∧
      ingestFile ["hcaT", "topA"] keysC parse22 tbl0 [["header", "junk"]] =
        some tbl0 ∧
      ingestRow ["hcaT", "topA"] keysC parse22 tbl0
        ["w", "w", "xgene", "w", "gd", "22"] = some tbl0 :=
  ⟨by decide,
   (c9_header_and_unknown_keys ["hcaT", "topA"] keysC parse22 tbl0).1
      ["header", "junk"] [],
   (c9_header_and_unknown_keys ["hcaT", "topA"] keysC parse22 tbl0).2.1
      "w" "w" "xgene" "w" "gd" "22" [] (by decide)⟩

/-- C10: after key initialization, every guide key of a non-reference
gene's table is also a key of the reference gene's (hcaT's) table, so the
Step-2 lookup of the reference-gene mean under the same guide is defined
by construction. -/
theorem c10_reference_keys_defined (fds : List String)
    (gl : String → List String) (mv : String → String → ℚ) (g gd : String)
    (hg : g ≠ "hcaT") (hmem : gd ∈ guideKeys fds gl g) :
    gd ∈ guideKeys fds gl "hcaT" ∧
      (dCqMeanOpt (meanTableOf fds gl mv) g gd).isSome = true := by
  simp only [guideKeys, if_neg hg, List.mem_flatMap] at hmem
  obtain ⟨d, hd, hin⟩ := hmem
  by_cases hgd : g ∈ gl d
  · rw [if_pos hgd] at hin
    have hunf : guideKeys fds gl "hcaT" = fds.flatMap (fun d =>
        ((gl d).filter (fun gene => gene != "hcaT")).flatMap
          (fun gene => [gene ++ "1_C", gene ++ "3_C", "Rand42_" ++ d])) := by
      simp [guideKeys]
    have hhcaT : gd ∈ guideKeys fds gl "hcaT" := by
      rw [hunf, List.mem_flatMap]
      refine ⟨d, hd, ?_⟩
      rw [List.mem_flatMap]
      refine ⟨g, ?_, hin⟩
      rw [List.mem_filter]
      exact ⟨hgd, by simpa using hg⟩
    have hgmem : gd ∈ guideKeys fds gl g := by
      simp only [guideKeys, if_neg hg, List.mem_flatMap]
      exact ⟨d, hd, by rw [if_pos hgd]; exact hin⟩
    refine ⟨hhcaT, ?_⟩
    simp [dCqMeanOpt, meanTableOf, if_pos hhcaT, if_pos hgmem]
  · rw [if_neg hgd] at hin
    exact absurd hin (List.not_mem_nil gd)

/-- Witness for C10 on the notebook's own configuration (its file dates
and gene lists), at gene `topA` and guide key `topA1_C`. -/
theorem c10_witness :
    (("topA" : String) ≠ "hcaT" ∧
        "topA1_C" ∈ guideKeys fileDates gene_list "topA") ∧
      "topA1_C" ∈ guideKeys fileDates gene_list "hcaT" ∧
        (dCqMeanOpt (meanTableOf fileDates gene_list (fun _ _ => 0))
            "topA" "topA1_C").isSome = true :=
  ⟨⟨by decide, by decide⟩,
    c10_reference_keys_defined fileDates gene_list (fun _ _ => 0)
      "topA" "topA1_C" (by decide) (by decide)⟩
